import Mathlib

/-!
Shallow embedding of the pointer/gesture interaction core of the
`DraggableImageCanvas` React component (src/src/App.tsx).

Numbers (JS doubles) are modelled as exact rationals `ℚ`; the JS `Set` of
selected ids as `Finset ℚ`; the `images` array as `List ImageItem`; the
nullable `selectedImage : number | null` as `Option ℚ`.  Environment inputs
that the handlers read (mouse coordinates, the bounding rectangle of the
canvas element, `Date.now()`, `Math.random()`) are passed as explicit
arguments.  Each document-level event handler becomes a function
`CanvasState → CanvasState`.
-/

/-- Mirror of the `ImageItem` interface (src/src/App.tsx, lines 738-754).
The opaque payload fields (`file`, `src`, `name`, `type`, `uploadedAt`) are
kept as strings, `size` as a natural number; all geometry is rational. -/
structure ImageItem where
  id : ℚ
  file : String
  src : String
  name : String
  size : ℕ
  type : String
  uploadedAt : String
  x : ℚ
  y : ℚ
  width : ℚ
  height : ℚ
  originalWidth : ℚ
  originalHeight : ℚ
  zIndex : ℚ
deriving DecidableEq

/-- Mirror of the `selectionBox` state record `\x7b startX, startY, endX, endY \x7d`. -/
structure SelectionBox where
  startX : ℚ
  startY : ℚ
  endX : ℚ
  endY : ℚ
deriving DecidableEq

/-- The bounding client rect of the canvas element, as supplied by the DOM
(`getBoundingClientRect`): left/top corner and width/height. -/
structure Rect where
  left : ℚ
  top : ℚ
  width : ℚ
  height : ℚ
deriving DecidableEq

/-- The component state: one field per `useState` hook of
`DraggableImageCanvas` that the interaction core reads or writes
(src/src/App.tsx, lines 757-771).  Purely cosmetic state (`dragActive`,
`showToast`) is omitted. -/
structure CanvasState where
  images : List ImageItem
  selectedImage : Option ℚ
  selectedImages : Finset ℚ
  dragOffset : ℚ × ℚ
  isDraggingImage : Bool
  isDraggingGroup : Bool
  isSelecting : Bool
  selectionBox : SelectionBox
  lastMousePos : ℚ × ℚ
  zoomLevel : ℚ
  panOffset : ℚ × ℚ
  isPanning : Bool
  panStartPos : ℚ × ℚ
deriving DecidableEq

/-- The initial state of every `useState` hook (src/src/App.tsx, 757-771). -/
def initState : CanvasState where
  images := []
  selectedImage := none
  selectedImages := ∅
  dragOffset := (0, 0)
  isDraggingImage := false
  isDraggingGroup := false
  isSelecting := false
  selectionBox := ⟨0, 0, 0, 0⟩
  lastMousePos := (0, 0)
  zoomLevel := 1
  panOffset := (0, 0)
  isPanning := false
  panStartPos := (0, 0)

/-- One axis of the pointer-to-canvas transform used at lines 888-889 and
1159-1160: `(pointer - center) / zoom + center - pan`, where `pointer` is the
client coordinate already made relative to the rect edge. -/
def toCanvasCoord (pointer center zoom pan : ℚ) : ℚ :=
  (pointer - center) / zoom + center - pan

/-- Modelled from the spec: the inverse transform
`pointer = (canvas - viewportCenter + pan) * zoom + viewportCenter`, which the
source never writes down explicitly (rendering applies scale/translate via
CSS); stated here to check the round-trip property. -/
def fromCanvasCoord (canvas center zoom pan : ℚ) : ℚ :=
  (canvas - center + pan) * zoom + center

/-- Both axes of the transform, exactly as the handlers compute them:
`x = (clientX - rect.left - centerX) / zoom + centerX - pan.x` with
`centerX = rect.width / 2`, and likewise for `y`. -/
def toCanvas (client : ℚ × ℚ) (rect : Rect) (zoom : ℚ) (pan : ℚ × ℚ) : ℚ × ℚ :=
  (toCanvasCoord (client.1 - rect.left) (rect.width / 2) zoom pan.1,
   toCanvasCoord (client.2 - rect.top) (rect.height / 2) zoom pan.2)

/-- Mirror of `handleWheel` (lines 943-951): fixed step `zoomFactor = 0.1`
per notch, direction from the sign of `deltaY`, result clamped by
`Math.max(0.1, Math.min(3, zoomLevel + delta))`. -/
def handleWheel (deltaY : ℚ) (s : CanvasState) : CanvasState :=
  let zoomFactor : ℚ := 1/10
  let delta : ℚ := if deltaY > 0 then -zoomFactor else zoomFactor
  { s with zoomLevel := max (1/10) (min 3 (s.zoomLevel + delta)) }

/-- The `else if` chain of `handleMouseMove` after the single-drag branch
(lines 856-897): group drag, then pan, then rubber-band update. -/
def handleMouseMoveRest (cx cy : ℚ) (rect : Rect) (s0 : CanvasState) : CanvasState :=
  if s0.isDraggingGroup ∧ 0 < s0.selectedImages.card then
    let dx := (cx - s0.dragOffset.1) / s0.zoomLevel
    let dy := (cy - s0.dragOffset.2) / s0.zoomLevel
    { s0 with
      images := s0.images.map fun img =>
        if img.id ∈ s0.selectedImages then { img with x := img.x + dx, y := img.y + dy }
        else img,
      dragOffset := (cx, cy) }
  else if s0.isPanning then
    { s0 with
      panOffset := (s0.panOffset.1 + (cx - s0.panStartPos.1),
                    s0.panOffset.2 + (cy - s0.panStartPos.2)),
      panStartPos := (cx, cy) }
  else if s0.isSelecting then
    let p := toCanvas (cx, cy) rect s0.zoomLevel s0.panOffset
    { s0 with selectionBox := { s0.selectionBox with endX := p.1, endY := p.2 } }
  else s0

/-- Mirror of `handleMouseMove` (lines 841-898).  The mouse position is
recorded first (`setLastMousePos`), then the branch chain runs.  The guard of
the first branch is the JS truthiness test `isDraggingImage && selectedImage`:
it requires `selectedImage` to be non-null and non-zero. -/
def handleMouseMove (cx cy : ℚ) (rect : Rect) (s : CanvasState) : CanvasState :=
  let s0 := { s with lastMousePos := (cx, cy) }
  match s0.selectedImage with
  | some a =>
    if s0.isDraggingImage ∧ a ≠ 0 then
      let dx := (cx - s0.dragOffset.1) / s0.zoomLevel
      let dy := (cy - s0.dragOffset.2) / s0.zoomLevel
      { s0 with
        images := s0.images.map fun img =>
          if img.id = a then { img with x := img.x + dx, y := img.y + dy } else img,
        dragOffset := (cx, cy) }
    else handleMouseMoveRest cx cy rect s0
  | none => handleMouseMoveRest cx cy rect s0

/-- Center point of an item, as computed at lines 912-913. -/
def imgCenter (img : ImageItem) : ℚ × ℚ :=
  (img.x + img.width / 2, img.y + img.height / 2)

/-- The axis-aligned box of lines 903-908: per-axis min/max of the selection
box corners, membership test inclusive of edges (lines 915-916). -/
def inBandBox (sb : SelectionBox) (img : ImageItem) : Prop :=
  min sb.startX sb.endX ≤ (imgCenter img).1 ∧ (imgCenter img).1 ≤ max sb.startX sb.endX ∧
  min sb.startY sb.endY ≤ (imgCenter img).2 ∧ (imgCenter img).2 ≤ max sb.startY sb.endY

instance (sb : SelectionBox) (img : ImageItem) : Decidable (inBandBox sb img) := by
  unfold inBandBox; infer_instance

/-- Mirror of `handleMouseUp` (lines 900-929): if a rubber band is active,
replace the selection with the ids of the images whose center lies in the
box; then unconditionally leave every drag/pan mode and null `selectedImage`. -/
def handleMouseUp (s : CanvasState) : CanvasState :=
  let s1 :=
    if s.isSelecting then
      let selectedIds := ((s.images.filter fun img => decide (inBandBox s.selectionBox img)).map
        (fun img => img.id)).toFinset
      { s with selectedImages := selectedIds, isSelecting := false }
    else s
  { s1 with
    isDraggingImage := false, isDraggingGroup := false, isPanning := false,
    selectedImage := none }

/-- Mirror of `handleImageMouseDown` (lines 1092-1135).  `ctrl` is the
modifier test `e.ctrlKey || e.metaKey`; `now` is the value of `Date.now()`
during the handler. -/
def handleImageMouseDown (ctrl : Bool) (cx cy imageId now : ℚ) (s : CanvasState) :
    CanvasState :=
  if ctrl then
    { s with
      selectedImages :=
        if imageId ∈ s.selectedImages then s.selectedImages.erase imageId
        else insert imageId s.selectedImages }
  else if imageId ∈ s.selectedImages ∧ 1 < s.selectedImages.card then
    { s with
      isDraggingGroup := true,
      dragOffset := (cx, cy),
      images := s.images.map fun img =>
        if img.id ∈ s.selectedImages then { img with zIndex := now + img.id } else img }
  else
    { s with
      selectedImage := some imageId,
      selectedImages := {imageId},
      isDraggingImage := true,
      dragOffset := (cx, cy),
      images := s.images.map fun img =>
        if img.id = imageId then { img with zIndex := now } else img }

/-- Mirror of `handleCanvasMouseDown` (lines 1137-1170).  `targetIsCanvas` is
the hit test `e.target === e.currentTarget`; `button` is the mouse button
(`1` = middle, `0` = primary); `rect` is `currentTarget.getBoundingClientRect()`. -/
def handleCanvasMouseDown (targetIsCanvas : Bool) (button : ℕ) (cx cy : ℚ) (rect : Rect)
    (s : CanvasState) : CanvasState :=
  if targetIsCanvas then
    if button = 1 then
      { s with isPanning := true, panStartPos := (cx, cy) }
    else if button = 0 then
      let p := toCanvas (cx, cy) rect s.zoomLevel s.panOffset
      { s with
        selectedImages := ∅,
        isSelecting := true,
        selectionBox := { startX := p.1, startY := p.2, endX := p.1, endY := p.2 } }
    else s
  else s

/-- Mirror of `removeImage` (lines 1172-1174): filter the one id out of the
image list; no other state field is touched. -/
def removeImage (i : ℚ) (s : CanvasState) : CanvasState :=
  { s with images := s.images.filter fun img => decide (img.id ≠ i) }

/-- Mirror of `deleteSelectedImages` (lines 1193-1197): drop every selected
image, then clear the selection set. -/
def deleteSelectedImages (s : CanvasState) : CanvasState :=
  { s with
    images := s.images.filter fun img => decide (img.id ∉ s.selectedImages),
    selectedImages := ∅ }

/-- Mirror of `resetImagePositions` (lines 1176-1184): row-major 4-column
grid with cell 220 and origin (50, 200), position determined by the index in
the image list; clears the selection. -/
def resetImagePositions (s : CanvasState) : CanvasState :=
  { s with
    images := s.images.enum.map fun p =>
      { p.2 with
        x := 50 + ((p.1 % 4 : ℕ) : ℚ) * 220,
        y := 200 + ((p.1 / 4 : ℕ) : ℚ) * 220 },
    selectedImages := ∅ }

/-- The id assigned to a freshly added image at line 1009:
`Date.now() + Math.random()`. -/
def newImageId (now rand : ℚ) : ℚ := now + rand

/-- The width/height computation of `addImage` (lines 979-991): fit the
original size into a 200-pixel square preserving aspect. -/
def imageFitSize (maxSize ow oh : ℚ) : ℚ × ℚ :=
  let aspect := ow / oh
  if aspect > 1 then (maxSize, maxSize / aspect) else (maxSize * aspect, maxSize)

/-- The placement computation of `addImage` (lines 994-1006): center on the
drop point clamped into the window, else pseudo-random placement with
`randX`, `randY` standing for the two `Math.random()` draws. -/
def imagePlacement (w h : ℚ) (drop : Option (ℚ × ℚ)) (winW winH randX randY : ℚ) : ℚ × ℚ :=
  match drop with
  | some d => (max 0 (min (d.1 - w / 2) (winW - w)),
               max 100 (min (d.2 - h / 2) (winH - h - 50)))
  | none => (randX * (winW - w - 100) + 50, randY * (winH - h - 300) + 200)

/-- The `newImage` record built at lines 1008-1023: id from wall clock plus
random, `zIndex` from the wall clock alone. -/
def mkImageItem (now rand : ℚ) (fileName : String) (fileSize : ℕ)
    (fileType srcData timeStr : String) (ow oh : ℚ) (pos : ℚ × ℚ) : ImageItem where
  id := newImageId now rand
  file := fileName
  src := srcData
  name := fileName
  size := fileSize
  type := fileType
  uploadedAt := timeStr
  x := pos.1
  y := pos.2
  width := (imageFitSize 200 ow oh).1
  height := (imageFitSize 200 ow oh).2
  originalWidth := ow
  originalHeight := oh
  zIndex := now

/-- The state update `setImages(prev => [...prev, newImage])` at line 1025. -/
def addImage (item : ImageItem) (s : CanvasState) : CanvasState :=
  { s with images := s.images ++ [item] }

/-! Helper lemmas shared by the claim theorems. -/

lemma forall2_map_self {α : Type} {P : α → α → Prop} {f : α → α} :
    ∀ {l : List α}, (∀ x ∈ l, P (f x) x) → List.Forall₂ P (l.map f) l := by
  intro l h
  induction l with
  | nil => exact List.Forall₂.nil
  | cons a t ih =>
    exact List.Forall₂.cons (h a (by simp)) (ih fun x hx => h x (by simp [hx]))

lemma handleWheel_zoom_bounds (d : ℚ) (t : CanvasState) :
    1/10 ≤ (handleWheel d t).zoomLevel ∧ (handleWheel d t).zoomLevel ≤ 3 := by
  refine ⟨le_max_left _ _, max_le (by norm_num) (min_le_left _ _)⟩

/-- Folding a whole sequence of wheel events over the state. -/
def wheelSeq (ds : List ℚ) (s : CanvasState) : CanvasState :=
  ds.foldl (fun t d => handleWheel d t) s

lemma wheelSeq_zoom_bounds :
    ∀ (ds : List ℚ) (s : CanvasState), 1/10 ≤ s.zoomLevel → s.zoomLevel ≤ 3 →
      1/10 ≤ (wheelSeq ds s).zoomLevel ∧ (wheelSeq ds s).zoomLevel ≤ 3
  | [], _, h1, h2 => ⟨h1, h2⟩
  | d :: ds, s, _, _ =>
    wheelSeq_zoom_bounds ds (handleWheel d s) (handleWheel_zoom_bounds d s).1
      (handleWheel_zoom_bounds d s).2

/-- Claim C4: every wheel event moves the zoom by the fixed step 1/10 in the
direction of the wheel and clamps the result into [1/10, 3]; consequently,
starting from any zoom in [1/10, 3], the zoom stays in [1/10, 3] after any
sequence of wheel events, so it is never 0 or negative. -/
theorem zoom_step_and_clamp (s : CanvasState) (d : ℚ) (ds : List ℚ)
    (h1 : 1/10 ≤ s.zoomLevel) (h2 : s.zoomLevel ≤ 3) :
    (handleWheel d s).zoomLevel
        = max (1/10) (min 3 (s.zoomLevel + if d > 0 then -(1/10) else 1/10)) ∧
    1/10 ≤ (wheelSeq ds s).zoomLevel ∧ (wheelSeq ds s).zoomLevel ≤ 3 ∧
    0 < (wheelSeq ds s).zoomLevel := by
  have hb := wheelSeq_zoom_bounds ds s h1 h2
  exact ⟨rfl, hb.1, hb.2, lt_of_lt_of_le (by norm_num) hb.1⟩

/-- Witness for C4 at the initial state (zoom 1) and a concrete event list. -/
theorem zoom_step_and_clamp_witness :
    (1/10 ≤ initState.zoomLevel ∧ initState.zoomLevel ≤ 3) ∧
    ((handleWheel 1 initState).zoomLevel
        = max (1/10) (min 3 (initState.zoomLevel + if (1 : ℚ) > 0 then -(1/10) else 1/10)) ∧
      1/10 ≤ (wheelSeq [1, -2, 1, 1] initState).zoomLevel ∧
      (wheelSeq [1, -2, 1, 1] initState).zoomLevel ≤ 3 ∧
      0 < (wheelSeq [1, -2, 1, 1] initState).zoomLevel) :=
  ⟨⟨by norm_num [initState], by norm_num [initState]⟩,
    zoom_step_and_clamp initState 1 [1, -2, 1, 1] (by norm_num [initState])
      (by norm_num [initState])⟩

/-- Claim C9: removing an id that no image carries leaves the whole state
unchanged, and removal is idempotent. -/
theorem removeImage_noop_and_idempotent (s : CanvasState) (i : ℚ) :
    (i ∉ s.images.map ImageItem.id → removeImage i s = s) ∧
    removeImage i (removeImage i s) = removeImage i s := by
  constructor
  · intro hmem
    have hf : s.images.filter (fun img => decide (img.id ≠ i)) = s.images := by
      apply List.filter_eq_self.mpr
      intro img himg
      simp only [decide_eq_true_eq]
      intro he
      exact hmem (he ▸ List.mem_map_of_mem ImageItem.id himg)
    show { s with images := s.images.filter fun img => decide (img.id ≠ i) } = s
    rw [hf]
  · show { s with images :=
        (s.images.filter fun img => decide (img.id ≠ i)).filter fun img => decide (img.id ≠ i) }
      = { s with images := s.images.filter fun img => decide (img.id ≠ i) }
    rw [List.filter_filter]
    simp

/-- Witness for C9: removing the absent id 7 from the initial state. -/
theorem removeImage_noop_and_idempotent_witness :
    ((7 : ℚ) ∉ initState.images.map ImageItem.id) ∧
    removeImage 7 initState = initState ∧
    removeImage 7 (removeImage 7 initState) = removeImage 7 initState :=
  ⟨by simp [initState],
    (removeImage_noop_and_idempotent initState 7).1 (by simp [initState]),
    (removeImage_noop_and_idempotent initState 7).2⟩

/-- Claim C7: for zoom in the set used by the spec (1/10, 1, 3) and pan
(0, 0) or (37, -12), the pointer-to-canvas transform composed with the
spec's inverse transform recovers the pointer point exactly (per axis). -/
theorem coord_round_trip (z : ℚ) (pan : ℚ × ℚ)
    (hz : z = 1/10 ∨ z = 1 ∨ z = 3)
    (_hpan : pan = (0, 0) ∨ pan = ((37 : ℚ), (-12 : ℚ))) :
    ∀ p c : ℚ × ℚ,
      fromCanvasCoord (toCanvasCoord p.1 c.1 z pan.1) c.1 z pan.1 = p.1 ∧
      fromCanvasCoord (toCanvasCoord p.2 c.2 z pan.2) c.2 z pan.2 = p.2 := by
  have hz' : z ≠ 0 := by rcases hz with h | h | h <;> rw [h] <;> norm_num
  intro p c
  constructor <;> · unfold fromCanvasCoord toCanvasCoord; field_simp; ring

/-- Witness for C7 at zoom 1/10, pan (37, -12), pointer (5, 7), center (3, 4). -/
theorem coord_round_trip_witness :
    fromCanvasCoord (toCanvasCoord 5 3 (1/10) 37) 3 (1/10) 37 = 5 ∧
    fromCanvasCoord (toCanvasCoord 7 4 (1/10) (-12)) 4 (1/10) (-12) = 7 :=
  coord_round_trip (1/10) ((37 : ℚ), (-12 : ℚ)) (Or.inl rfl) (Or.inr rfl) (5, 7) (3, 4)

lemma handleMouseMoveRest_selectedImages (cx cy : ℚ) (rect : Rect) (s0 : CanvasState) :
    (handleMouseMoveRest cx cy rect s0).selectedImages = s0.selectedImages := by
  unfold handleMouseMoveRest
  split_ifs <;> rfl

lemma handleMouseMove_selectedImages (cx cy : ℚ) (rect : Rect) (s : CanvasState)
    (hdi : s.isDraggingImage = false) :
    (handleMouseMove cx cy rect s).selectedImages = s.selectedImages := by
  unfold handleMouseMove
  cases hsel : s.selectedImage with
  | none =>
    simp only [hsel, handleMouseMoveRest_selectedImages]
  | some a =>
    simp only [hsel, hdi]
    rw [if_neg (by simp), handleMouseMoveRest_selectedImages]

/-- Claim C10: a primary-button press on empty canvas clears the selection
immediately, enters rubber-band mode with the press point (transformed to
canvas space) as both corners, leaves the images untouched, and a subsequent
pointer-move of the gesture keeps the selection empty. -/
theorem canvas_press_clears_selection (s : CanvasState) (cx cy mx my : ℚ)
    (rect rect2 : Rect)
    (hdi : s.isDraggingImage = false) :
    (handleCanvasMouseDown true 0 cx cy rect s).selectedImages = ∅ ∧
    (handleCanvasMouseDown true 0 cx cy rect s).isSelecting = true ∧
    (handleCanvasMouseDown true 0 cx cy rect s).selectionBox
      = ⟨(toCanvas (cx, cy) rect s.zoomLevel s.panOffset).1,
         (toCanvas (cx, cy) rect s.zoomLevel s.panOffset).2,
         (toCanvas (cx, cy) rect s.zoomLevel s.panOffset).1,
         (toCanvas (cx, cy) rect s.zoomLevel s.panOffset).2⟩ ∧
    (handleCanvasMouseDown true 0 cx cy rect s).images = s.images ∧
    (handleMouseMove mx my rect2 (handleCanvasMouseDown true 0 cx cy rect s)).selectedImages
      = ∅ := by
  have hred : handleCanvasMouseDown true 0 cx cy rect s
      = { s with
          selectedImages := ∅,
          isSelecting := true,
          selectionBox :=
            { startX := (toCanvas (cx, cy) rect s.zoomLevel s.panOffset).1,
              startY := (toCanvas (cx, cy) rect s.zoomLevel s.panOffset).2,
              endX := (toCanvas (cx, cy) rect s.zoomLevel s.panOffset).1,
              endY := (toCanvas (cx, cy) rect s.zoomLevel s.panOffset).2 } } := by
    unfold handleCanvasMouseDown
    norm_num
  rw [hred]
  refine ⟨rfl, rfl, rfl, rfl, ?_⟩
  rw [handleMouseMove_selectedImages]
  exact hdi

/-- Witness for C10 at the initial state with a press at (10, 20) and a
subsequent move to (30, 40). -/
theorem canvas_press_clears_selection_witness :
    initState.isDraggingImage = false ∧
    ((handleCanvasMouseDown true 0 10 20 ⟨0, 0, 800, 600⟩ initState).selectedImages = ∅ ∧
      (handleCanvasMouseDown true 0 10 20 ⟨0, 0, 800, 600⟩ initState).isSelecting = true ∧
      (handleCanvasMouseDown true 0 10 20 ⟨0, 0, 800, 600⟩ initState).selectionBox
        = ⟨(toCanvas (10, 20) ⟨0, 0, 800, 600⟩ initState.zoomLevel initState.panOffset).1,
           (toCanvas (10, 20) ⟨0, 0, 800, 600⟩ initState.zoomLevel initState.panOffset).2,
           (toCanvas (10, 20) ⟨0, 0, 800, 600⟩ initState.zoomLevel initState.panOffset).1,
           (toCanvas (10, 20) ⟨0, 0, 800, 600⟩ initState.zoomLevel initState.panOffset).2⟩ ∧
      (handleCanvasMouseDown true 0 10 20 ⟨0, 0, 800, 600⟩ initState).images = initState.images ∧
      (handleMouseMove 30 40 ⟨0, 0, 800, 600⟩
          (handleCanvasMouseDown true 0 10 20 ⟨0, 0, 800, 600⟩ initState)).selectedImages = ∅) :=
  ⟨rfl, canvas_press_clears_selection initState 10 20 30 40 ⟨0, 0, 800, 600⟩ ⟨0, 0, 800, 600⟩ rfl⟩

/-- Claim C5: a pointer-move processed in single-drag mode moves the anchor
item by exactly the raw pointer delta divided by the zoom, leaves every
other item untouched, leaves the anchor's size and stacking order untouched,
and re-anchors the drag offset at the current raw pointer position. -/
theorem dragging_single_moves_anchor_only (s : CanvasState) (cx cy : ℚ) (rect : Rect)
    (a : ℚ) (hd : s.isDraggingImage = true) (hsel : s.selectedImage = some a)
    (ha : a ≠ 0) :
    List.Forall₂ (fun img' img =>
        (img.id = a →
          img'.x = img.x + (cx - s.dragOffset.1) / s.zoomLevel ∧
          img'.y = img.y + (cy - s.dragOffset.2) / s.zoomLevel ∧
          img'.width = img.width ∧ img'.height = img.height ∧
          img'.zIndex = img.zIndex) ∧
        (img.id ≠ a → img' = img))
      (handleMouseMove cx cy rect s).images s.images ∧
    (handleMouseMove cx cy rect s).dragOffset = (cx, cy) := by
  have hred : handleMouseMove cx cy rect s
      = { s with
          lastMousePos := (cx, cy),
          images := s.images.map fun img =>
            if img.id = a then
              { img with
                x := img.x + (cx - s.dragOffset.1) / s.zoomLevel,
                y := img.y + (cy - s.dragOffset.2) / s.zoomLevel }
            else img,
          dragOffset := (cx, cy) } := by
    unfold handleMouseMove
    simp only [hsel, hd]
    rw [if_pos (by simp [ha])]
  rw [hred]
  refine ⟨forall2_map_self ?_, rfl⟩
  intro img _
  by_cases hid : img.id = a <;> simp [hid]

/-- Concrete image used by witnesses: identity `i`, square geometry, stacking
order `z`. -/
def demoItem (i x y w h z : ℚ) : ImageItem :=
  { id := i, file := "f", src := "s", name := "n", size := 0, type := "image/png",
    uploadedAt := "t", x := x, y := y, width := w, height := h,
    originalWidth := w, originalHeight := h, zIndex := z }

/-- State for the C5 witness: one image with id 5, single-drag active, drag
anchored at (100, 100), zoom 2. -/
def d5State : CanvasState :=
  { initState with
    images := [demoItem 5 10 20 30 40 7],
    selectedImage := some 5,
    selectedImages := {5},
    isDraggingImage := true,
    dragOffset := (100, 100),
    zoomLevel := 2 }

/-- Witness for C5: moving to (104, 106) at zoom 2 moves the anchor by (2, 3). -/
theorem dragging_single_moves_anchor_only_witness :
    (d5State.isDraggingImage = true ∧ d5State.selectedImage = some 5 ∧ (5 : ℚ) ≠ 0) ∧
    (List.Forall₂ (fun img' img =>
        (img.id = 5 →
          img'.x = img.x + (104 - d5State.dragOffset.1) / d5State.zoomLevel ∧
          img'.y = img.y + (106 - d5State.dragOffset.2) / d5State.zoomLevel ∧
          img'.width = img.width ∧ img'.height = img.height ∧
          img'.zIndex = img.zIndex) ∧
        (img.id ≠ 5 → img' = img))
      (handleMouseMove 104 106 ⟨0, 0, 800, 600⟩ d5State).images d5State.images ∧
    (handleMouseMove 104 106 ⟨0, 0, 800, 600⟩ d5State).dragOffset = (104, 106)) :=
  ⟨⟨rfl, rfl, by norm_num⟩,
    dragging_single_moves_anchor_only d5State 104 106 ⟨0, 0, 800, 600⟩ 5 rfl rfl (by norm_num)⟩

lemma handleMouseUp_selected_mem (s : CanvasState) (hs : s.isSelecting = true) (i : ℚ) :
    i ∈ (handleMouseUp s).selectedImages ↔
      ∃ img ∈ s.images, img.id = i ∧ inBandBox s.selectionBox img := by
  unfold handleMouseUp
  simp only [hs, if_true]
  simp only [CanvasState.selectedImages, List.mem_toFinset, List.mem_map, List.mem_filter,
    decide_eq_true_eq]
  constructor
  · rintro ⟨img, ⟨hmem, hbox⟩, hid⟩
    exact ⟨img, hmem, hid, hbox⟩
  · rintro ⟨img, hmem, hid, hbox⟩
    exact ⟨img, ⟨hmem, hbox⟩, hid⟩

/-- Claim C3: releasing a rubber band replaces the selection with exactly the
ids of the items whose center lies (edge-inclusively) in the min/max box of
the two corners; the result is invariant under swapping the two corners; and
a degenerate band at a point that is no item's center yields the empty
selection, whatever was selected before. -/
theorem rubber_band_replaces_selection (s : CanvasState) (i : ℚ)
    (hs : s.isSelecting = true) :
    (i ∈ (handleMouseUp s).selectedImages ↔
      ∃ img ∈ s.images, img.id = i ∧
        min s.selectionBox.startX s.selectionBox.endX ≤ img.x + img.width / 2 ∧
        img.x + img.width / 2 ≤ max s.selectionBox.startX s.selectionBox.endX ∧
        min s.selectionBox.startY s.selectionBox.endY ≤ img.y + img.height / 2 ∧
        img.y + img.height / 2 ≤ max s.selectionBox.startY s.selectionBox.endY) ∧
    (handleMouseUp { s with selectionBox :=
        ⟨s.selectionBox.endX, s.selectionBox.endY,
         s.selectionBox.startX, s.selectionBox.startY⟩ }).selectedImages
      = (handleMouseUp s).selectedImages ∧
    (s.selectionBox.endX = s.selectionBox.startX → s.selectionBox.endY = s.selectionBox.startY →
      (∀ img ∈ s.images, imgCenter img ≠ (s.selectionBox.startX, s.selectionBox.startY)) →
      (handleMouseUp s).selectedImages = ∅) := by
  refine ⟨?_, ?_, ?_⟩
  · rw [handleMouseUp_selected_mem s hs i]
    unfold inBandBox imgCenter
    simp
  · ext j
    rw [handleMouseUp_selected_mem s hs j, handleMouseUp_selected_mem _ (by exact hs) j]
    unfold inBandBox
    simp only [CanvasState.selectionBox, CanvasState.images]
    rw [min_comm s.selectionBox.endX s.selectionBox.startX,
      max_comm s.selectionBox.endX s.selectionBox.startX,
      min_comm s.selectionBox.endY s.selectionBox.startY,
      max_comm s.selectionBox.endY s.selectionBox.startY]
  · intro hx hy hc
    rw [Finset.eq_empty_iff_forall_not_mem]
    intro j hj
    rw [handleMouseUp_selected_mem s hs j] at hj
    obtain ⟨img, hmem, _, hbox⟩ := hj
    unfold inBandBox at hbox
    rw [hx, hy] at hbox
    simp only [min_self, max_self] at hbox
    exact hc img hmem (by
      unfold imgCenter
      have h1 : img.x + img.width / 2 = s.selectionBox.startX :=
        le_antisymm hbox.2.1 hbox.1
      have h2 : img.y + img.height / 2 = s.selectionBox.startY :=
        le_antisymm hbox.2.2.2 hbox.2.2.1
      rw [h1, h2])

/-- State for the C3 witness: three images with centers (10, 10), (50, 50),
(200, 200) and an active band from (0, 0) to (60, 60). -/
def w3State : CanvasState :=
  { initState with
    images := [demoItem 1 0 0 20 20 1, demoItem 2 40 40 20 20 2, demoItem 3 190 190 20 20 3],
    isSelecting := true,
    selectionBox := ⟨0, 0, 60, 60⟩ }

/-- Witness for C3: in `w3State` the item with id 2 (center (50, 50)) is
selected on release, and the band drawn in the opposite direction selects the
same set. -/
theorem rubber_band_replaces_selection_witness :
    w3State.isSelecting = true ∧
    (2 : ℚ) ∈ (handleMouseUp w3State).selectedImages ∧
    (handleMouseUp { w3State with selectionBox :=
        ⟨w3State.selectionBox.endX, w3State.selectionBox.endY,
         w3State.selectionBox.startX, w3State.selectionBox.startY⟩ }).selectedImages
      = (handleMouseUp w3State).selectedImages := by
  refine ⟨rfl, ?_, (rubber_band_replaces_selection w3State 2 rfl).2.1⟩
  exact (rubber_band_replaces_selection w3State 2 rfl).1.mpr
    ⟨demoItem 2 40 40 20 20 2, by simp [w3State], rfl, by norm_num [w3State, demoItem]⟩

lemma reset_images_getElem (s : CanvasState) (i : ℕ) :
    (resetImagePositions s).images[i]?
      = s.images[i]?.map fun img =>
          { img with
            x := 50 + ((i % 4 : ℕ) : ℚ) * 220,
            y := 200 + ((i / 4 : ℕ) : ℚ) * 220 } := by
  unfold resetImagePositions
  simp only [CanvasState.images, List.getElem?_map, List.getElem?_enum, Option.map_map]
  cases s.images[i]? <;> rfl

lemma list_eq_of_length_five {α : Type} {l : List α} (h : l.length = 5) :
    ∃ a b c d e : α, l = [a, b, c, d, e] := by
  rcases l with _ | ⟨a, l⟩; · simp at h
  rcases l with _ | ⟨b, l⟩; · simp at h
  rcases l with _ | ⟨c, l⟩; · simp at h
  rcases l with _ | ⟨d, l⟩; · simp at h
  rcases l with _ | ⟨e, l⟩; · simp at h
  rcases l with _ | ⟨f, l⟩
  · exact ⟨a, b, c, d, e, rfl⟩
  · simp at h

/-- Claim C8: the grid arrangement repositions the item at list index `i` to
`(50 + (i mod 4) * 220, 200 + (i div 4) * 220)` (4 columns, cell 220, origin
(50, 200), row-major in insertion order), keeps the ids in order, clears the
selection, and for 5 items produces exactly the five positions of the spec. -/
theorem grid_arrangement (s : CanvasState) :
    (resetImagePositions s).selectedImages = ∅ ∧
    (∀ i : ℕ, ((resetImagePositions s).images[i]?.map fun img => (img.x, img.y))
        = s.images[i]?.map fun _ =>
            ((50 + ((i % 4 : ℕ) : ℚ) * 220, 200 + ((i / 4 : ℕ) : ℚ) * 220) : ℚ × ℚ)) ∧
    (resetImagePositions s).images.map ImageItem.id = s.images.map ImageItem.id ∧
    (s.images.length = 5 →
      ((resetImagePositions s).images.map fun img => (img.x, img.y))
        = [((50 : ℚ), (200 : ℚ)), (270, 200), (490, 200), (710, 200), (50, 420)]) := by
  refine ⟨rfl, ?_, ?_, ?_⟩
  · intro i
    rw [reset_images_getElem]
    cases s.images[i]? <;> rfl
  · apply List.ext_getElem?
    intro i
    rw [List.getElem?_map, reset_images_getElem, List.getElem?_map, Option.map_map]
    cases s.images[i]? <;> rfl
  · intro h5
    obtain ⟨a, b, c, d, e, hl⟩ := list_eq_of_length_five h5
    unfold resetImagePositions
    simp only [CanvasState.images, hl]
    norm_num [List.enum, List.enumFrom]

/-- State for the C8 witness: five images in insertion order 1..5. -/
def g5State : CanvasState :=
  { initState with
    images := [demoItem 1 1 1 10 10 1, demoItem 2 2 2 10 10 2, demoItem 3 3 3 10 10 3,
               demoItem 4 4 4 10 10 4, demoItem 5 5 5 10 10 5],
    selectedImages := {1, 2} }

/-- Witness for C8: the five-item example of the spec, with the non-empty
prior selection cleared. -/
theorem grid_arrangement_witness :
    g5State.images.length = 5 ∧
    ((resetImagePositions g5State).images.map fun img => (img.x, img.y))
      = [((50 : ℚ), (200 : ℚ)), (270, 200), (490, 200), (710, 200), (50, 420)] ∧
    (resetImagePositions g5State).selectedImages = ∅ :=
  ⟨rfl, (grid_arrangement g5State).2.2.2 rfl, (grid_arrangement g5State).1⟩

/-- State for C2, reachable by an ordinary event history.  Three images, ids
from creation ticks 1000, 1500, 2200.  A (id 1000) was later clicked alone
and so carries `zIndex = 3500`; B (id 1500) keeps its creation order 1500;
U (id 2200) took part in an earlier group bring-to-front at tick 3000 and so
carries `zIndex = 3000 + 2200 = 5200`.  A and B are selected, U is not. -/
def c2State : CanvasState :=
  { initState with
    images := [demoItem 1000 0 0 10 10 3500, demoItem 1500 20 0 10 10 1500,
               demoItem 2200 40 0 10 10 5200],
    selectedImages := {1000, 1500} }

/-- Counterexample to C2: in `c2State` the group bring-to-front at tick 4000
assigns the selected items `now + id`, giving A order 5000 and B order 5500.
So A, which was above B (3500 > 1500), ends up below B — the pre-existing
relative stacking order of the selected items is not preserved — and the
unselected U keeps order 5200, which still exceeds the selected A's 5000 —
so neither does every selected item end above every unselected item. -/
theorem group_bring_to_front_reorders_by_id :
    ((1000 : ℚ) ∈ c2State.selectedImages ∧ (1500 : ℚ) ∈ c2State.selectedImages ∧
      (2200 : ℚ) ∉ c2State.selectedImages ∧ 1 < c2State.selectedImages.card) ∧
    c2State.images.map ImageItem.id = [1000, 1500, 2200] ∧
    c2State.images.map ImageItem.zIndex = [3500, 1500, 5200] ∧
    (3500 : ℚ) > 1500 ∧
    (handleImageMouseDown false 0 0 1000 4000 c2State).images.map ImageItem.zIndex
      = [5000, 5500, 5200] ∧
    (5000 : ℚ) < 5500 ∧ (5200 : ℚ) > 5000 := by
  refine ⟨by decide, by decide, by decide, by norm_num, ?_, by norm_num, by norm_num⟩
  norm_num [handleImageMouseDown, c2State, demoItem, initState]

/-- Claim C2 as amended: under a group drag start the selected items are
restacked to `now + id` and the unselected items are left unchanged, so after
the operation the relative order of any two selected items follows their
identity (creation) order — not necessarily the pre-existing stacking order —
and a selected item need not end above an unselected one (see the
counterexample, where an earlier group bring-to-front left an unselected
item at `earlier-now + id`, above the fresh `now + id` of a selected item). -/
theorem group_bring_to_front_orders_by_id (s : CanvasState) (imageId now cx cy : ℚ)
    (hmem : imageId ∈ s.selectedImages) (hcard : 1 < s.selectedImages.card) :
    (∀ a' ∈ (handleImageMouseDown false cx cy imageId now s).images,
      a'.id ∈ s.selectedImages → a'.zIndex = now + a'.id) ∧
    (∀ a' ∈ (handleImageMouseDown false cx cy imageId now s).images,
      a'.id ∉ s.selectedImages → a' ∈ s.images) ∧
    (∀ a' b', a' ∈ (handleImageMouseDown false cx cy imageId now s).images →
      b' ∈ (handleImageMouseDown false cx cy imageId now s).images →
      a'.id ∈ s.selectedImages → b'.id ∈ s.selectedImages →
      a'.id < b'.id → a'.zIndex < b'.zIndex) := by
  have himg : (handleImageMouseDown false cx cy imageId now s).images
      = s.images.map fun img =>
          if img.id ∈ s.selectedImages then { img with zIndex := now + img.id } else img := by
    unfold handleImageMouseDown
    rw [if_neg (by simp), if_pos ⟨hmem, hcard⟩]
  have key : ∀ a' ∈ (handleImageMouseDown false cx cy imageId now s).images,
      (a'.id ∈ s.selectedImages → a'.zIndex = now + a'.id) ∧
      (a'.id ∉ s.selectedImages → a' ∈ s.images) := by
    rw [himg]
    intro a' ha'
    obtain ⟨a, hmem_a, hfa⟩ := List.mem_map.mp ha'
    subst hfa
    by_cases hsel : a.id ∈ s.selectedImages
    · constructor
      · intro _
        simp [hsel]
      · intro h2
        simp only [if_pos hsel] at h2
        exact absurd hsel h2
    · constructor
      · intro h2
        simp only [if_neg hsel] at h2
        exact absurd h2 hsel
      · intro _
        simpa [if_neg hsel] using hmem_a
  refine ⟨fun a' h h2 => (key a' h).1 h2, fun a' h h2 => (key a' h).2 h2, ?_⟩
  intro a' b' ha hb hsa hsb hlt
  rw [(key a' ha).1 hsa, (key b' hb).1 hsb]
  linarith

/-- Witness for the amended C2 at `c2State`: after the group bring-to-front
at tick 4000 the selected ids 1000 and 1500 carry orders 4000 + id, identity
order decides stacking among them, and the unselected item is unchanged. -/
theorem group_bring_to_front_orders_by_id_witness :
    ((1000 : ℚ) ∈ c2State.selectedImages ∧ 1 < c2State.selectedImages.card) ∧
    ((∀ a' ∈ (handleImageMouseDown false 0 0 1000 4000 c2State).images,
        a'.id ∈ c2State.selectedImages → a'.zIndex = 4000 + a'.id) ∧
      (∀ a' ∈ (handleImageMouseDown false 0 0 1000 4000 c2State).images,
        a'.id ∉ c2State.selectedImages → a' ∈ c2State.images) ∧
      (∀ a' b', a' ∈ (handleImageMouseDown false 0 0 1000 4000 c2State).images →
        b' ∈ (handleImageMouseDown false 0 0 1000 4000 c2State).images →
        a'.id ∈ c2State.selectedImages → b'.id ∈ c2State.selectedImages →
        a'.id < b'.id → a'.zIndex < b'.zIndex)) :=
  ⟨⟨by decide, by decide⟩,
    group_bring_to_front_orders_by_id c2State 1000 4000 0 0 (by decide) (by decide)⟩

/-- Two images added in the same millisecond (`Date.now()` = 1000) with the
same `Math.random()` draw 1/2. -/
def dupAddState : CanvasState :=
  addImage (mkImageItem 1000 (1/2) "b.png" 0 "image/png" "db" "t" 100 100 (0, 0))
    (addImage (mkImageItem 1000 (1/2) "a.png" 0 "image/png" "da" "t" 100 100 (0, 0)) initState)

/-- Counterexample to C6: identities come from `Date.now() + Math.random()`,
so two rapid successive additions can carry the same identity — the later
item's identity is neither distinct from nor greater than the earlier one's. -/
theorem wallclock_id_collision :
    dupAddState.images.map ImageItem.id = [1000 + 1/2, 1000 + 1/2] ∧
    ¬ ((1000 + 1/2 : ℚ) < 1000 + 1/2) := by
  constructor
  · norm_num [dupAddState, addImage, mkImageItem, newImageId, initState]
  · norm_num

/-- Claim C6 as amended: an item's identity is `Date.now() + Math.random()`,
not a strictly increasing counter; identities are strictly increasing only
across distinct clock ticks — if the second creation happens at least one
millisecond later (and the random draws lie in [0, 1)), its identity is
strictly greater — while additions within the same millisecond may collide. -/
theorem image_id_increases_across_ticks (now1 now2 r1 r2 : ℚ)
    (fn1 fn2 : String) (fs1 fs2 : ℕ) (ft1 ft2 sd1 sd2 ts1 ts2 : String)
    (ow1 ow2 oh1 oh2 : ℚ) (pos1 pos2 : ℚ × ℚ)
    (hr1 : r1 < 1) (hr2 : 0 ≤ r2) (hnow : now1 + 1 ≤ now2) :
    (mkImageItem now1 r1 fn1 fs1 ft1 sd1 ts1 ow1 oh1 pos1).id
      < (mkImageItem now2 r2 fn2 fs2 ft2 sd2 ts2 ow2 oh2 pos2).id := by
  show newImageId now1 r1 < newImageId now2 r2
  unfold newImageId
  linarith

/-- Witness for the amended C6: creations at ticks 1000 and 1001. -/
theorem image_id_increases_across_ticks_witness :
    ((1/2 : ℚ) < 1 ∧ (0 : ℚ) ≤ 1/4 ∧ (1000 : ℚ) + 1 ≤ 1001) ∧
    (mkImageItem 1000 (1/2) "a.png" 0 "image/png" "da" "t" 100 100 (0, 0)).id
      < (mkImageItem 1001 (1/4) "b.png" 0 "image/png" "db" "t" 100 100 (0, 0)).id :=
  ⟨⟨by norm_num, by norm_num, by norm_num⟩,
    image_id_increases_across_ticks 1000 1001 (1/2) (1/4) "a.png" "b.png" 0 0
      "image/png" "image/png" "da" "db" "t" "t" 100 100 100 100 (0, 0) (0, 0)
      (by norm_num) (by norm_num) (by norm_num)⟩

/-- State for C1: two images, both selected. -/
def c1State : CanvasState :=
  { initState with
    images := [demoItem 1 0 0 10 10 1, demoItem 2 20 0 10 10 2],
    selectedImages := {1, 2} }

/-- Claim C1 evaluated at its failing input: the per-item delete of id 1
removes the image from the store but leaves the selection set untouched, so
the stale id 1 keeps referencing a removed item; only the bulk
`deleteSelectedImages` empties the selection. -/
theorem removeImage_leaves_dangling_selection :
    (removeImage 1 c1State).images.map ImageItem.id = [2] ∧
    (removeImage 1 c1State).selectedImages = ({1, 2} : Finset ℚ) ∧
    (1 : ℚ) ∈ (removeImage 1 c1State).selectedImages ∧
    (1 : ℚ) ∉ (removeImage 1 c1State).images.map ImageItem.id ∧
    (deleteSelectedImages c1State).selectedImages = ∅ ∧
    (deleteSelectedImages c1State).images = [] := by
  refine ⟨?_, rfl, by decide, ?_, rfl, ?_⟩ <;> decide
